import Mathlib

/-!
Verification of the image-inspection script `Template/Assets/image_info.py`.

The script opens one image file, reads its Pillow color mode and the
optional `"bits"` entry of the metadata dictionary, and prints a
three-line report; two exception handlers turn failures into single
error lines.  We embed the script shallowly: the decoder's answer is a
value of `Except PyError ImageData`, Python truthiness and `str`
rendering of the possible `"bits"` values are made explicit, and the
whole program becomes the pure function `run`.
-/

/-- Values the metadata dictionary can hold under the key `"bits"`:
Pillow stores either a single integer or a per-channel tuple of
integers there. -/
inductive BitsVal where
  | intVal (n : Int)
  | tupleVal (l : List Int)
deriving DecidableEq, Repr

/-- Python truthiness of a `"bits"` value, as tested by
`if bit_depth_info:` (line 16 of the script): an integer is truthy iff
nonzero, a tuple iff nonempty. -/
def pyTruthy : BitsVal → Bool
  | BitsVal.intVal n => n != 0
  | BitsVal.tupleVal l => !l.isEmpty

/-- Python `str` of a `"bits"` value, as interpolated by
`f"... {bit_depth_info} ..."` (line 22): integers print their decimal
form, tuples print parenthesised comma-separated elements, with the
trailing comma Python uses for a one-element tuple. -/
def pyStr : BitsVal → String
  | BitsVal.intVal n => toString n
  | BitsVal.tupleVal [] => "()"
  | BitsVal.tupleVal [a] => "(" ++ toString a ++ ",)"
  | BitsVal.tupleVal (a :: rest) =>
      "(" ++ toString a ++ String.join (rest.map (fun b => ", " ++ toString b)) ++ ")"

/-- The static mode lookup of lines 25-32, taken when the `"bits"`
metadata is absent or falsy. -/
def standardLookup (mode : String) : String :=
  if mode = "RGBA" then "Image Bit Depth: RGBA8888 (Standard)"
  else if mode = "RGB" then "Image Bit Depth: RGB888 (Standard)"
  else if mode = "L" then "Image Bit Depth: 8-bit Grayscale (L8)"
  else "Image Bit Depth: Format details are not explicitly available."

/-- The third report line, lines 16-32 of the script.  `info.get("bits")`
yields `none` when the key is missing; a present value is tested for
truthiness, then `isinstance(bit_depth_info, tuple) and
len(bit_depth_info) == len(mode)` selects between the concatenated
per-channel form (with the literal prefix `"RGBA"` of line 20) and the
generic fallback of line 22. -/
def bitDepthLine (mode : String) (bits : Option BitsVal) : String :=
  match bits with
  | some v =>
      if pyTruthy v then
        match v with
        | BitsVal.tupleVal l =>
            if l.length = mode.length then
              "Image Bit Depth: RGBA" ++ String.join (l.map toString)
            else
              "Image Bit Depth: " ++ pyStr v ++ " bits per channel (or an unknown format)"
        | BitsVal.intVal _ =>
            "Image Bit Depth: " ++ pyStr v ++ " bits per channel (or an unknown format)"
      else
        standardLookup mode
  | none => standardLookup mode

/-- What the script observes about a successfully opened image: its
Pillow mode string and the optional `"bits"` metadata value. -/
structure ImageData where
  mode : String
  bits : Option BitsVal
deriving DecidableEq, Repr

/-- The two kinds of exception the script distinguishes: a
`FileNotFoundError` from `Image.open`, or any other exception, which
carries its message text. -/
inductive PyError where
  | fileNotFound
  | other (msg : String)
deriving DecidableEq, Repr

/-- The body of the `try` block (lines 4-32): opening and querying the
image either fails with an exception or yields the three report
lines.  Both `img.mode` and `img.info.get("bits")` are read before the
first `print`, so a query failure produces no output at all. -/
def body (path : String) (opened : Except PyError ImageData) :
    Except PyError (List String) :=
  match opened with
  | Except.error e => Except.error e
  | Except.ok img =>
      Except.ok
        [ "File: " ++ path
        , "Pillow Mode: " ++ img.mode
        , bitDepthLine img.mode img.bits ]

/-- The two `except` clauses (lines 34-37): `FileNotFoundError` prints
the fixed not-found template, every other exception prints
`"An error occurred: "` followed by the message.  Both handlers return
normally, so the interpreter exits with status 0 in every case; the
second component is that exit status. -/
def handle (path : String) (r : Except PyError (List String)) :
    List String × Nat :=
  match r with
  | Except.ok out => (out, 0)
  | Except.error PyError.fileNotFound =>
      (["Error: The file '" ++ path ++ "' was not found."], 0)
  | Except.error (PyError.other m) => (["An error occurred: " ++ m], 0)

/-- The whole script: run the `try` body on the decoder's answer and
apply the exception handlers.  The result is the printed lines and the
process exit status. -/
def run (path : String) (opened : Except PyError ImageData) :
    List String × Nat :=
  handle path (body path opened)

/-- The hard-coded input path of line 4. -/
def image_path : String := "title_background.png"

/-- Claim C1, as stated, is false: the matched-tuple branch labels the
digits with the literal string "RGBA" from line 20, not with the mode
name, so an RGB image with bits (8, 8, 8) is printed as "RGBA888"
rather than "RGB888". -/
theorem C1_counterexample :
    bitDepthLine "RGB" (some (BitsVal.tupleVal [8, 8, 8]))
        ≠ "Image Bit Depth: RGB888" ∧
    bitDepthLine "RGB" (some (BitsVal.tupleVal [8, 8, 8]))
        = "Image Bit Depth: RGBA888" := by
  decide

/-- Claim C1 (amended): for every image whose bits metadata is a
nonempty tuple whose length matches the length of the mode string, the
third output line is the concatenated per-channel digits labeled with
the fixed prefix "RGBA", whatever the mode is. -/
theorem C1_matched_tuple_literal_prefix (mode : String) (l : List Int)
    (hne : l ≠ []) (hlen : l.length = mode.length) :
    bitDepthLine mode (some (BitsVal.tupleVal l)) =
      "Image Bit Depth: RGBA" ++ String.join (l.map toString) := by
  simp [bitDepthLine, pyTruthy, hne, hlen]

/-- Witness for the amended claim C1 at mode "RGB" with bits (8, 8, 8). -/
theorem C1_witness :
    bitDepthLine "RGB" (some (BitsVal.tupleVal [8, 8, 8])) =
      "Image Bit Depth: RGBA" ++ String.join ([(8 : Int), 8, 8].map toString) :=
  C1_matched_tuple_literal_prefix "RGB" [8, 8, 8] (by decide) (by decide)

/-- Claim C2, as stated, is false: a bits value that is present but
falsy — the integer 0 here — is not a tuple, so the claim demands the
generic fallback line, yet the truthiness test of line 16 sends it to
the standard-lookup branch instead. -/
theorem C2_counterexample :
    bitDepthLine "RGBA" (some (BitsVal.intVal 0))
        = "Image Bit Depth: RGBA8888 (Standard)" ∧
    bitDepthLine "RGBA" (some (BitsVal.intVal 0))
        ≠ "Image Bit Depth: 0 bits per channel (or an unknown format)" := by
  decide

/-- Claim C2 (amended): for every image whose bits value is present and
truthy (a nonzero integer or a nonempty tuple) but is either not a
tuple or has a length different from the length of the mode string, the
program emits the generic fallback line stating the raw value; the
length validation is part of the branch condition, so no per-channel
pairing happens. -/
theorem C2_fallback_on_mismatch (mode : String) (v : BitsVal)
    (ht : pyTruthy v = true)
    (hm : ∀ l, v = BitsVal.tupleVal l → l.length ≠ mode.length) :
    bitDepthLine mode (some v) =
      "Image Bit Depth: " ++ pyStr v ++ " bits per channel (or an unknown format)" := by
  cases v with
  | intVal n => simp [bitDepthLine, ht]
  | tupleVal l => simp [bitDepthLine, ht, hm l rfl]

/-- Witness for the amended claim C2: a 2-tuple against the 4-character
mode "RGBA" falls back to the generic line. -/
theorem C2_witness :
    bitDepthLine "RGBA" (some (BitsVal.tupleVal [8, 8])) =
      "Image Bit Depth: " ++ pyStr (BitsVal.tupleVal [8, 8]) ++
        " bits per channel (or an unknown format)" :=
  C2_fallback_on_mismatch "RGBA" (BitsVal.tupleVal [8, 8]) (by decide)
    (fun l hl => by cases hl; decide)

/-- Claim C3: for every RGBA image carrying a 4-tuple bits value, which
matches the four-character mode string, the third output line is
"Image Bit Depth: RGBA" followed by the four per-channel values
concatenated. -/
theorem C3_rgba_four_tuple (a b c d : Int) :
    bitDepthLine "RGBA" (some (BitsVal.tupleVal [a, b, c, d])) =
      "Image Bit Depth: RGBA" ++ toString a ++ toString b ++ toString c ++ toString d := by
  simp [bitDepthLine, pyTruthy, String.join, List.foldl, String.empty_append,
    String.append_assoc, show "RGBA".length = 4 from rfl]

/-- Claim C4: with no bits metadata the third line is the static mode
lookup — "RGBA", "RGB" and "L" map to their standard labels and every
other mode maps to the not-available message. -/
theorem C4_absent_static_lookup :
    bitDepthLine "RGBA" none = "Image Bit Depth: RGBA8888 (Standard)" ∧
    bitDepthLine "RGB" none = "Image Bit Depth: RGB888 (Standard)" ∧
    bitDepthLine "L" none = "Image Bit Depth: 8-bit Grayscale (L8)" ∧
    ∀ m : String, m ≠ "RGBA" → m ≠ "RGB" → m ≠ "L" →
      bitDepthLine m none = "Image Bit Depth: Format details are not explicitly available." := by
  refine ⟨by decide, by decide, by decide, ?_⟩
  intro m h1 h2 h3
  simp [bitDepthLine, standardLookup, h1, h2, h3]

/-- Witness for claim C4 at the palette mode "P", which is none of the
three recognized modes. -/
theorem C4_witness :
    bitDepthLine "P" none = "Image Bit Depth: Format details are not explicitly available." :=
  C4_absent_static_lookup.2.2.2 "P" (by decide) (by decide) (by decide)

/-- Claim C5: when opening fails with FileNotFoundError, the whole
output is the single not-found line mentioning the path, and the exit
status is 0. -/
theorem C5_not_found_single_line (path : String) :
    run path (Except.error PyError.fileNotFound) =
      (["Error: The file '" ++ path ++ "' was not found."], 0) :=
  rfl

/-- Claim C6: every other failure while opening or querying the image
produces the single line "An error occurred: " followed by the error
message verbatim, and the exit status is 0. -/
theorem C6_other_error_verbatim (path msg : String) :
    run path (Except.error (PyError.other msg)) =
      (["An error occurred: " ++ msg], 0) :=
  rfl

/-- Claim C7: output is all-or-nothing — a successful open yields
exactly the three report lines, and any failure yields exactly one
line; both the mode and the bits value are read before the first print,
so no partial mix can occur. -/
theorem C7_all_or_nothing (path : String) (opened : Except PyError ImageData) :
    (∃ img, opened = Except.ok img ∧
        (run path opened).1 =
          [ "File: " ++ path
          , "Pillow Mode: " ++ img.mode
          , bitDepthLine img.mode img.bits ]) ∨
    (∃ e, opened = Except.error e ∧ (run path opened).1.length = 1) := by
  cases opened with
  | ok img => exact Or.inl ⟨img, rfl, rfl⟩
  | error e => exact Or.inr ⟨e, rfl, by cases e <;> rfl⟩

/-- Claim C8: `run` is a total function into output lines paired with
exit status, and that exit status is 0 on every input, success or
failure — the two handlers absorb both error kinds. -/
theorem C8_always_exit_zero (path : String) (opened : Except PyError ImageData) :
    (run path opened).2 = 0 := by
  cases opened with
  | ok img => rfl
  | error e => cases e <;> rfl

/-- Claim C9: inspection is deterministic — two invocations seeing the
same decoder result produce byte-identical output. -/
theorem C9_deterministic (path : String) (o₁ o₂ : Except PyError ImageData)
    (h : o₁ = o₂) : run path o₁ = run path o₂ := by
  rw [h]

/-- Witness for claim C9 on the concrete hard-coded path and a plain
RGBA image without bits metadata. -/
theorem C9_witness :
    run image_path (Except.ok { mode := "RGBA", bits := none }) =
      run image_path (Except.ok { mode := "RGBA", bits := none }) :=
  C9_deterministic image_path _ _ rfl

/-- Claim C10: presence of bits metadata is decided by truthiness — a
present but falsy value (zero integer or empty tuple) takes the same
standard-lookup branch as an absent value. -/
theorem C10_falsy_treated_as_absent (mode : String) (v : BitsVal)
    (hf : pyTruthy v = false) :
    bitDepthLine mode (some v) = bitDepthLine mode none := by
  cases v <;> simp_all [bitDepthLine]

/-- Witness for claim C10: the integer 0 as bits value on an RGBA image
behaves like absent metadata. -/
theorem C10_witness :
    bitDepthLine "RGBA" (some (BitsVal.intVal 0)) = bitDepthLine "RGBA" none :=
  C10_falsy_treated_as_absent "RGBA" (BitsVal.intVal 0) (by decide)
